import Mathlib

/-!
Verification of the naif-pds4-bundler increment & versioning engine.

The Python sources are shallowly embedded: Python strings are lists of
characters, Python string primitives (`in`, `split`, `replace`, `strip`,
`int(...)`, lexicographic `sort`) are executable Lean functions with the same
semantics on the inputs the pipeline feeds them, filesystem reads are explicit
function parameters, and a function whose Python original can raise an
unhandled exception returns `Except`.
-/

/-- Python strings are modelled as lists of characters. -/
abbrev PyStr := List Char

/-- Turns a Lean string literal into the model representation. -/
def str (s : String) : PyStr := s.data

/-- Python `str.startswith`: does `l` start with `p`? -/
def startsList : PyStr → PyStr → Bool
  | [], _ => true
  | _ :: _, [] => false
  | a :: as, b :: bs => a == b && startsList as bs

/-- Python `n in l` on strings: does `n` occur as a contiguous substring of `l`? -/
def hasSub (n : PyStr) : PyStr → Bool
  | [] => startsList n []
  | c :: cs => startsList n (c :: cs) || hasSub n cs

/-- Python `str.endswith`. -/
def endsList (suf l : PyStr) : Bool := startsList suf.reverse l.reverse

/-- Leftmost occurrence of a non-empty separator `sep` in a string: the part
strictly before it and the part strictly after it.  `none` when `sep` does not
occur (or `sep` is empty, a case the embedded code never produces). -/
def splitFirst (sep : PyStr) : PyStr → Option (PyStr × PyStr)
  | [] => none
  | c :: cs =>
    if !sep.isEmpty && startsList sep (c :: cs) then
      some ([], (c :: cs).drop sep.length)
    else
      match splitFirst sep cs with
      | some (pre, post) => some (c :: pre, post)
      | none => none

/-- Fuel-driven worker for `pySplit`.  Every successful `splitFirst` consumes at
least one character, so fuel equal to the length of the string is exact. -/
def pySplitF (sep : PyStr) : Nat → PyStr → List PyStr
  | 0, l => [l]
  | fuel + 1, l =>
    match splitFirst sep l with
    | none => [l]
    | some (pre, post) => pre :: pySplitF sep fuel post

/-- Python `l.split(sep)` for a non-empty separator. -/
def pySplit (sep l : PyStr) : List PyStr := pySplitF sep l.length l

/-- Fuel-driven worker for `pyReplace`. -/
def pyReplaceF (pat rep : PyStr) : Nat → PyStr → PyStr
  | 0, l => l
  | fuel + 1, l =>
    match splitFirst pat l with
    | none => l
    | some (pre, post) => pre ++ rep ++ pyReplaceF pat rep fuel post

/-- Python `l.replace(pat, rep)` for a non-empty pattern: every non-overlapping
occurrence, scanned left to right, is replaced. -/
def pyReplace (pat rep l : PyStr) : PyStr := pyReplaceF pat rep l.length l

/-- Python whitespace for `str.strip()`. -/
def isPySpace (c : Char) : Bool :=
  c == ' ' || c == '\t' || c == '\n' || c == '\r' || c == '\x0b' || c == '\x0c'

/-- Python `l.strip()`. -/
def pyStrip (l : PyStr) : PyStr :=
  ((l.dropWhile isPySpace).reverse.dropWhile isPySpace).reverse

/-- Python `int(...)` restricted to non-negative decimal literals, the only
shape the pipeline ever parses successfully; every other input raises
`ValueError`, modelled as `none`. -/
def pyInt (l : PyStr) : Option Nat :=
  if !l.isEmpty && l.all Char.isDigit then
    some (l.foldl (fun a c => a * 10 + (c.toNat - 48)) 0)
  else none

/-- Decimal rendering of a natural number, Python `str(n)`. -/
def natStr (n : Nat) : PyStr := (toString n).data

/-- Python `f"{n:03}"` for a non-negative `n`. -/
def pad3 (n : Nat) : PyStr := List.replicate (3 - (natStr n).length) '0' ++ natStr n

/-- Python string comparison: lexicographic by code point. -/
def lexLe : PyStr → PyStr → Bool
  | [], _ => true
  | _ :: _, [] => false
  | a :: as, b :: bs => Nat.blt a.toNat b.toNat || (a == b && lexLe as bs)

/-- Insertion step of the lexicographic sort. -/
def insertLex (x : PyStr) : List PyStr → List PyStr
  | [] => [x]
  | y :: ys => if lexLe x y then x :: y :: ys else y :: insertLex x ys

/-- Python `list.sort()` on strings (insertion sort, ascending). -/
def sortLex : List PyStr → List PyStr
  | [] => []
  | x :: xs => insertLex x (sortLex xs)

/-- Python `ls[0]` as the pipeline uses it: `pySplit` always returns a
non-empty list, so the default is never taken on reachable inputs. -/
def pyIdxHead (ls : List PyStr) : PyStr := ls.headD []

/-- Python `ls[-1]`, with the same caveat as `pyIdxHead`. -/
def pyIdxLast (ls : List PyStr) : PyStr := ls.getLastD []

/-- Embeds `Setup.set_release` (src/src/naif_pds4_bundler/classes/setup.py:538-641).

The inputs mirror the data the Python function reads: `clear` is
`self.args.clear`; `bundle_glob` is the result of the `bundle_*_spice_v*` glob
in the bundle directory; `kernel_list_glob` is the result of the
`*_<run_type>_*.kernel_list` glob in the working directory.  The result is
`(release, current_release, increment)`.

Faithfulness notes:
* In the `args.clear` branch the two splits and the `int(...)` conversion are
  not wrapped in any `try`, so a parse failure raises an uncaught `ValueError`;
  this is the `Except.error` case.
* In the bundle-label tier an empty glob raises `IndexError` on `releases[-1]`
  inside the bare `except` wrapper; in the model the empty list turns into the
  empty string, whose parse fails, landing in the same fallthrough.
* In the kernel-list tier, setup.py line 616 splits on the LITERAL text
  `_{self.run_type}_` -- the `f` string prefix is missing -- so the separator
  never occurs in a glob path and the tier always falls through to the
  first-release default.  The literal is reproduced below (braces escaped). -/
def set_release (clear : Option PyStr) (run_type : PyStr) (kerlist : Bool)
    (bundle_glob : List PyStr) (kernel_list_glob : List PyStr) :
    Except String (PyStr × PyStr × Bool) :=
  match clear with
  | some cl =>
    let r0 := pyIdxHead (pySplit (str ".file_list") cl)
    match pyInt (pyIdxLast (pySplit (str "_" ++ run_type ++ str "_") r0)) with
    | some n => Except.ok (pad3 n, pad3 (n - 1), true)
    | none => Except.error "ValueError"
  | none =>
    let tier2 : Option (PyStr × PyStr × Bool) :=
      match pyInt (pyIdxHead (pySplit (str ".")
          (pyIdxLast (pySplit (str "_spice_v") (pyIdxLast (sortLex bundle_glob)))))) with
      | some n => some (pad3 (n + 1), pad3 n, true)
      | none => none
    let tier3 : Option (PyStr × PyStr × Bool) :=
      if kerlist then none
      else
        match pyInt (pyIdxHead (pySplit (str ".")
            (pyIdxLast (pySplit (str "_\x7bself.run_type\x7d_")
              (pyIdxLast (sortLex kernel_list_glob)))))) with
        | some n => some (pad3 (n + 1), pad3 n, true)
        | none => none
    Except.ok ((tier2 <|> tier3).getD (str "001", [], false))

/-- C1: the claim states that a prior release detected through a prior
kernel-list file in the working directory yields `release = n-1 + 1` and
`increment = true`.  The code does not: with no bundle label and a prior
kernel list `insight_release_07.kernel_list` present, `set_release` returns
the first-release answer `("001", "", false)` instead of `("008", "007",
true)`, because setup.py line 616 splits on the literal text
`_{self.run_type}_` (missing `f` prefix), so the kernel-list tier can never
parse a release number. -/
theorem set_release_kernel_list_prior_ignored :
    set_release none (str "release") false []
      [str "working/insight_release_07.kernel_list"]
      = Except.ok (str "001", [], false) := by
  rfl

/-- C10 counterexample: in the `--clear` tier a filename whose embedded release
number fails to parse is NOT non-fatal: `int()` is called outside any
`try`/`except` (setup.py:557-569) and the `ValueError` propagates, aborting
release resolution instead of falling through to the next tier. -/
theorem set_release_clear_parse_fatal :
    set_release (some (str "this_file.file_list")) (str "release") false [] []
      = Except.error "ValueError" := by
  rfl

/-- C10 (amended): without the `--clear` argument, release resolution never
raises: any parse failure in the bundle-label tier falls through to the
kernel-list tier, and any failure there falls through to the first-release
default, so the function always returns a release triple. -/
theorem set_release_without_clear_total (run_type : PyStr) (kerlist : Bool)
    (bundle_glob kernel_list_glob : List PyStr) :
    ∃ v, set_release none run_type kerlist bundle_glob kernel_list_glob
      = Except.ok v :=
  ⟨_, rfl⟩

/-- Embeds `InventoryProduct.validate` (src/npb/classes/product.py:1045-1078):
each product LID is searched for as a substring of the written inventory lines;
a LID that cannot be found is logged as an error and recorded in the local
`products_found` flag, but the function raises nothing and always returns --
the flag is never acted on.  The returned list holds the missing LIDs; an
`Except.error` would model an exception escaping `validate`, which no path of
the source produces. -/
def inventory_validate (file_lines : List PyStr) (product_lids : List PyStr) :
    Except String (List PyStr) :=
  Except.ok (product_lids.filter fun lid => !(file_lines.any fun l => hasSub lid l))

/-- C3 counterexample: a product LID that appears in no line of the written
inventory does not fail the run.  With an empty inventory file and one
registered product, `validate` reports the product as missing yet returns
normally (`Except.ok`), so the pipeline continues past inventory validation. -/
theorem inventory_validate_missing_product_not_fatal :
    inventory_validate []
      [str "urn:nasa:pds:insight.spice:spice_kernels:lsk_naif0012.tls"]
      = Except.ok [str "urn:nasa:pds:insight.spice:spice_kernels:lsk_naif0012.tls"] := by
  rfl

/-- C3 (amended): a product LID absent from every line of the written
inventory is detected and reported in the missing list (and logged as an
error), but validation never fails: it always returns `Except.ok` and the run
continues. -/
theorem inventory_validate_reports_missing
    (file_lines product_lids : List PyStr) (lid : PyStr)
    (h1 : lid ∈ product_lids)
    (h2 : file_lines.all (fun l => !hasSub lid l) = true) :
    ∃ missing, inventory_validate file_lines product_lids = Except.ok missing
      ∧ lid ∈ missing := by
  refine ⟨_, rfl, ?_⟩
  refine List.mem_filter.mpr ⟨h1, ?_⟩
  have hany : (file_lines.any fun l => hasSub lid l) = false := by
    rw [List.any_eq_false]
    intro l hl
    have := (List.all_eq_true.mp h2) l hl
    simpa using this
  simp [hany]

/-- C3 witness: the amended theorem applied to the empty inventory file and a
single registered product. -/
theorem inventory_validate_reports_missing_witness :
    ∃ missing, inventory_validate [] [str "urn:nasa:pds:a"] = Except.ok missing
      ∧ str "urn:nasa:pds:a" ∈ missing :=
  inventory_validate_reports_missing [] [str "urn:nasa:pds:a"] (str "urn:nasa:pds:a")
    (by decide) (by decide)

/-- Embeds `InventoryProduct.product_lid` (src/npb/classes/product.py:984-993):
the LID is built from the agencies and the mission acronym only -- the
collection the inventory belongs to does not appear, and the suffix is the
document `spiceds` LID. -/
def inventory_product_lid (na aa mission : PyStr) : PyStr :=
  str "urn:" ++ na ++ str ":" ++ aa ++ str ":" ++ mission
    ++ str "_spice:document:spiceds"

/-- Embeds `InventoryProduct.product_vid` (src/npb/classes/product.py:996-998). -/
def inventory_product_vid (version : Nat) : PyStr := natStr version ++ str ".0"

/-- Embeds `SpicedsProduct.product_lid` (src/npb/classes/product.py:1292-1301). -/
def spiceds_product_lid (na aa mission : PyStr) : PyStr :=
  str "urn:" ++ na ++ str ":" ++ aa ++ str ":" ++ mission
    ++ str ".spice:document:spiceds"

/-- LIDVID concatenation (spec section 3): `LID::VID`. -/
def product_lidvid (lid vid : PyStr) : PyStr := lid ++ str "::" ++ vid

/-- Catalog view of a product: the collection it was registered under together
with its assigned LID and VID. -/
structure CatalogProduct where
  collection : PyStr
  lid : PyStr
  vid : PyStr
deriving DecidableEq

/-- Inventory product of a collection as registered in the catalog: its LID
comes from `InventoryProduct.product_lid`, which ignores the collection, and
its VID from `InventoryProduct.product_vid`. -/
def inventory_catalog_product (na aa mission coll : PyStr) (version : Nat) :
    CatalogProduct :=
  ⟨coll, inventory_product_lid na aa mission, inventory_product_vid version⟩

/-- C4: the claim states that no two distinct products registered during a run
share a LIDVID.  The code violates it: `InventoryProduct.product_lid` does not
mention the collection (and mislabels every inventory with the `spiceds`
document suffix), so on a first release the `spice_kernels` collection
inventory and the `document` collection inventory -- two distinct products --
both get LIDVID `urn:nasa:pds:insight_spice:document:spiceds::1.0`. -/
theorem inventory_lidvid_collision :
    inventory_catalog_product (str "nasa") (str "pds") (str "insight")
        (str "spice_kernels") 1
      ≠ inventory_catalog_product (str "nasa") (str "pds") (str "insight")
        (str "document") 1
    ∧ product_lidvid
        (inventory_catalog_product (str "nasa") (str "pds") (str "insight")
          (str "spice_kernels") 1).lid
        (inventory_catalog_product (str "nasa") (str "pds") (str "insight")
          (str "spice_kernels") 1).vid
      = product_lidvid
        (inventory_catalog_product (str "nasa") (str "pds") (str "insight")
          (str "document") 1).lid
        (inventory_catalog_product (str "nasa") (str "pds") (str "insight")
          (str "document") 1).vid := by
  exact ⟨by decide, rfl⟩

/-- Product as a collection holds it: the fields `write_product` and the
checksum phase read (`product.new_product`, `product.label.PRODUCT_LID`,
`product.label.PRODUCT_VID`, and the staged file name). -/
structure ArchProduct where
  name : PyStr
  lid : PyStr
  vid : PyStr
  new_product : Bool
deriving DecidableEq

/-- Modelled from the spec: `add_carriage_return` lives in npb/utils/files.py,
which is not under src/.  Spec sections 4.4 and 6: every inventory entry is
CRLF-terminated regardless of platform, so a line is normalised to end in
`\r\n`. -/
def add_carriage_return (l : PyStr) : PyStr :=
  if endsList (str "\r\n") l then l
  else if endsList (str "\n") l then l.dropLast ++ str "\r\n"
  else l ++ str "\r\n"

/-- Embeds the inventory product file name
(src/npb/classes/product.py:962): `collection_<name>_inventory_v<NNN>.csv`. -/
def inv_name (coll : PyStr) (version : Nat) : PyStr :=
  str "collection_" ++ coll ++ str "_inventory_v" ++ pad3 version ++ str ".csv"

/-- Embeds `InventoryProduct.write_product` (src/npb/classes/product.py:1001-1042).

`fs` maps a path to the lines of an existing file; `none` models `open`
raising, which the bare `except` turns into a logged error with no carried-over
entries.  When `increment` holds, the previous inventory path is computed from
the current file name by `self.name.replace(str(self.version),
str(self.version - 1))` -- a textual replace of the unpadded version number
inside the zero-padded name -- and each of its lines is copied with `P,urn`
flipped to `S,urn` (only on lines that contain `P,urn`) and CRLF enforced.
Then one `Primary` line per product with `new_product` set is appended, in
collection order. -/
def inventory_write_product (increment : Bool) (fs : PyStr → Option (List PyStr))
    (final_dir mission coll : PyStr) (version : Nat)
    (products : List ArchProduct) : List PyStr :=
  let name := inv_name coll version
  let prev :=
    if increment then
      match fs (final_dir ++ str "/" ++ mission ++ str "_spice/" ++ coll
          ++ str "/" ++ pyReplace (natStr version) (natStr (version - 1)) name) with
      | some rlines =>
        rlines.map fun l =>
          add_carriage_return
            (if hasSub (str "P,urn") l then pyReplace (str "P,urn") (str "S,urn") l else l)
      | none => []
    else []
  prev ++ (products.filter fun p => p.new_product).map fun p =>
    add_carriage_return (str "P," ++ p.lid ++ str "::" ++ p.vid ++ str "\r\n")

/-- Prior-release filesystem for the C5 failing input: the version-9 inventory
of the `spice_kernels` collection exists in the bundle area with one Primary
entry; no other file exists. -/
def prior_inventory_fs : PyStr → Option (List PyStr) := fun p =>
  if p = str "/bundle/insight_spice/spice_kernels/collection_spice_kernels_inventory_v009.csv"
  then some [str "P,urn:nasa:pds:insight.spice:spice_kernels:lsk_naif0012.tls::1.0\r\n"]
  else none

/-- C5: the claim states that whenever a prior-release inventory exists its
entries are copied forward with `P` flipped to `S` before the new Primary
entries.  At version 10 the code misses the existing version-9 inventory:
`"collection_spice_kernels_inventory_v010.csv".replace("10", "9")` yields
`..._v09.csv` (the replace hits the zero-padded `010`), the open fails into the
bare `except`, and the written inventory holds only the new Primary entry --
no Secondary line -- although `..._v009.csv` is present (first conjunct). -/
theorem inventory_write_product_skips_prior_at_v10 :
    prior_inventory_fs
        (str "/bundle/insight_spice/spice_kernels/collection_spice_kernels_inventory_v009.csv")
      = some [str "P,urn:nasa:pds:insight.spice:spice_kernels:lsk_naif0012.tls::1.0\r\n"]
    ∧ inventory_write_product true prior_inventory_fs (str "/bundle")
        (str "insight") (str "spice_kernels") 10
        [⟨str "insight_v10.tm", str "urn:nasa:pds:insight.spice:spice_kernels:mk_insight", str "10.0", true⟩]
      = [str "P,urn:nasa:pds:insight.spice:spice_kernels:mk_insight::10.0\r\n"] := by
  exact ⟨rfl, by decide⟩

/-- Modelled from the spec: `ChecksumProduct` is imported by src/npb/main.py
from npb.classes.product, but the class itself is not under src/.  Spec
section 4.5 step 3: at initialisation its stable name and placeholder LID/VID
are already known, and it is a product newly staged in this release
(`new_product` holds), which is what lets the miscellaneous inventory list it
as Primary. -/
def checksum_product (na aa mission : PyStr) : ArchProduct :=
  ⟨str "checksum_v001.tab",
   str "urn:" ++ na ++ str ":" ++ aa ++ str ":" ++ mission
     ++ str ".spice:miscellaneous:checksum",
   str "1.0", true⟩

/-- Modelled from the spec: `ChecksumProduct.generate` (not under src/).  Spec
sections 4.5 and 6: the checksum artifact holds one line per file physically
present in staging, `<relative-path> <MD5>`, and never checksums itself. -/
def checksum_generate (md5fn : PyStr → PyStr) (staged : List PyStr) : List PyStr :=
  staged.map fun f => f ++ str " " ++ md5fn f

/-- State of the miscellaneous-collection phase: the staged files, the
collection's product list, and the two written artifacts. -/
structure MiscState where
  staged : List PyStr
  products : List ArchProduct
  inventory_lines : List PyStr
  checksum_lines : List PyStr

/-- Embeds the miscellaneous-collection phase of the main pipeline
(src/npb/main.py:399-421), in source order:

1. line 402: `ChecksumProduct(setup, miscellaneous_collection)` -- the product
   is initialised so that its name is known (contents not yet generated);
2. line 403: it is added to the collection;
3. lines 405-407: `InventoryProduct(setup, miscellaneous_collection)` writes
   the inventory (via `write_product`, embedded above) over the collection
   products -- the checksum product is already among them -- and the written
   inventory file lands in the staging area; the inventory product is added to
   the collection;
4. line 420: `checksum.generate()` computes the checksum lines over the files
   now staged, which include the final miscellaneous inventory;
5. line 421: the checksum product is appended to the collection again and its
   file lands in staging.

`products0`/`staged0` are the collection products and staged files
accumulated before this phase.  The source `InventoryProduct` never assigns a
`new_product` attribute; the field is set here but nothing in the phase reads
it, since the inventory product joins the collection only after the inventory
was written. -/
def misc_phase (md5fn : PyStr → PyStr) (fs : PyStr → Option (List PyStr))
    (increment : Bool) (final_dir na aa mission : PyStr) (version : Nat)
    (products0 : List ArchProduct) (staged0 : List PyStr) : MiscState :=
  let checksum := checksum_product na aa mission
  let prods1 := products0 ++ [checksum]
  let inv_lines := inventory_write_product increment fs final_dir mission
    (str "miscellaneous") version prods1
  let invN := inv_name (str "miscellaneous") version
  let staged1 := staged0 ++ [invN]
  let prods2 := prods1
    ++ [⟨invN, inventory_product_lid na aa mission, inventory_product_vid version, true⟩]
  let ch_lines := checksum_generate md5fn staged1
  ⟨staged1 ++ [checksum.name], prods2 ++ [checksum], inv_lines, ch_lines⟩

/-- C2: after the miscellaneous-collection phase, (a) the written miscellaneous
inventory contains the checksum product as a Primary entry -- the checksum
product was added to the collection before the inventory was built; (b) the
checksum artifact is exactly one line per staged file, in staging order; and
(c) since the checksum contents are generated only after the inventory is
written and staged, the checksum table covers the final inventory file. -/
theorem misc_phase_checksum_inventory_closure
    (md5fn : PyStr → PyStr) (fs : PyStr → Option (List PyStr))
    (increment : Bool) (final_dir na aa mission : PyStr) (version : Nat)
    (products0 : List ArchProduct) (staged0 : List PyStr) :
    add_carriage_return (str "P," ++ (checksum_product na aa mission).lid
        ++ str "::" ++ (checksum_product na aa mission).vid ++ str "\r\n")
      ∈ (misc_phase md5fn fs increment final_dir na aa mission version
          products0 staged0).inventory_lines
    ∧ (misc_phase md5fn fs increment final_dir na aa mission version
          products0 staged0).checksum_lines
      = (staged0 ++ [inv_name (str "miscellaneous") version]).map
          (fun f => f ++ str " " ++ md5fn f)
    ∧ (inv_name (str "miscellaneous") version ++ str " "
        ++ md5fn (inv_name (str "miscellaneous") version))
      ∈ (misc_phase md5fn fs increment final_dir na aa mission version
          products0 staged0).checksum_lines := by
  refine ⟨?_, rfl, ?_⟩
  · show _ ∈ inventory_write_product increment fs final_dir mission
      (str "miscellaneous") version (products0 ++ [checksum_product na aa mission])
    unfold inventory_write_product
    refine List.mem_append_right _ ?_
    refine List.mem_map_of_mem _ ?_
    refine List.mem_filter.mpr ⟨?_, rfl⟩
    exact List.mem_append_right _ (List.mem_singleton.mpr rfl)
  · show _ ∈ checksum_generate md5fn (staged0 ++ [inv_name (str "miscellaneous") version])
    exact List.mem_map_of_mem _
      (List.mem_append_right _ (List.mem_singleton.mpr rfl))

/-- Fuel-driven worker for `globMatch`: each step removes one character from
the pattern or the subject, so fuel equal to the sum of the lengths is exact;
at fuel zero both are empty and the match succeeds. -/
def globMatchF : Nat → PyStr → PyStr → Bool
  | 0, p, s => p.isEmpty && s.isEmpty
  | fuel + 1, p, s =>
    match p, s with
    | [], [] => true
    | [], _ :: _ => false
    | '*' :: ps, [] => globMatchF fuel ps []
    | '*' :: ps, c :: cs =>
      globMatchF fuel ps (c :: cs) || globMatchF fuel ('*' :: ps) cs
    | _ :: _, [] => false
    | pc :: ps, c :: cs => pc == c && globMatchF fuel ps cs

/-- Shell-glob match as `glob.glob` applies a pattern to a file name: `*`
matches any (possibly empty) run of characters, every other character matches
itself. -/
def globMatch (p s : PyStr) : Bool := globMatchF (p.length + s.length) p s

/-- State of the `while match_flag` loop of `MetaKernelProduct.compare`
(src/npb/classes/product.py:655-703): the prefix length `i`, the flag, and the
last match `val_mk`. -/
structure CmpState where
  i : Nat
  match_flag : Bool
  val_mk : PyStr

/-- One evaluation of the loop body when `i < len(val_mk_name) - 1`
(product.py:672-680): glob `name[0:i] + "*.tm"` against the prior-release mk
directory, take the lexicographically last match if any, and advance `i`. -/
def compare_step (dir_files : List PyStr) (name : PyStr) (s : CmpState) : CmpState :=
  let val_mks := sortLex (dir_files.filter fun f =>
    globMatch (name.take s.i ++ '*' :: str ".tm") f)
  match val_mks.getLast? with
  | some m => ⟨s.i + 1, true, m⟩
  | none => ⟨s.i + 1, false, s.val_mk⟩

/-- Embeds the `while match_flag` loop of `MetaKernelProduct.compare`
(product.py:671-680) with an explicit step budget: `none` means the loop has
not terminated within `fuel` iterations.  Note the source shape: when
`match_flag` still holds but `i` has reached `len(val_mk_name) - 1`, the body
does nothing -- `i` is no longer incremented and the flag can never change. -/
def compare_run (dir_files : List PyStr) (name : PyStr) :
    Nat → CmpState → Option PyStr
  | 0, _ => none
  | fuel + 1, s =>
    if s.match_flag then
      if s.i < name.length - 1 then
        compare_run dir_files name fuel (compare_step dir_files name s)
      else
        compare_run dir_files name fuel s
    else some s.val_mk

/-- With the current meta-kernel named `a.tm` and the prior-release directory
holding `a.b.tm`, every prefix glob the loop can evaluate (lengths 0, 1, 2)
matches, so the step always leaves `match_flag` set. -/
theorem compare_step_keeps_flag (s : CmpState) (h : s.i < 3) :
    (compare_step [str "a.b.tm"] (str "a.tm") s).match_flag = true := by
  obtain ⟨i, flag, mk⟩ := s
  simp only at h
  have h3 : i = 0 ∨ i = 1 ∨ i = 2 := by omega
  rcases h3 with h | h | h <;> subst h <;> rfl

/-- Once `match_flag` holds it holds forever on this input, and the loop never
returns within any finite budget. -/
theorem compare_run_spins (fuel : Nat) :
    ∀ s : CmpState, s.match_flag = true →
      compare_run [str "a.b.tm"] (str "a.tm") fuel s = none := by
  induction fuel with
  | zero => intro s _; rfl
  | succ n ih =>
    intro s h
    show compare_run _ _ (n + 1) s = none
    rw [compare_run, if_pos h]
    by_cases hi : s.i < (str "a.tm").length - 1
    · rw [if_pos hi]
      exact ih _ (compare_step_keeps_flag s (by simpa using hi))
    · rw [if_neg hi]
      exact ih s h

/-- C6: the claim states that `MetaKernelProduct.compare` terminates for every
input.  It does not: with the generated meta-kernel named `a.tm` and the
prior-release mk directory containing `a.b.tm`, every prefix glob up to
`len(name) - 2` matches, so `match_flag` never clears; once `i` reaches
`len(name) - 1` the loop body stops incrementing `i` and the `while` spins
forever -- for every step budget the loop has still not produced a result, so
the comparison never reaches an artifact nor the template fallback and the
pipeline blocks. -/
theorem compare_diverges_on_matching_prior (fuel : Nat) :
    compare_run [str "a.b.tm"] (str "a.tm") fuel ⟨1, true, []⟩ = none :=
  compare_run_spins fuel ⟨1, true, []⟩ rfl

/-- Embeds the meta-kernel version extraction at construction
(src/npb/classes/product.py:307): `int(self.name.split('.')[0][-1])` reads the
LAST character of the portion of the name before the first dot; a non-digit
there raises `ValueError` (modelled as `none`). -/
def mk_name_version (name : PyStr) : Option Nat :=
  match (pyIdxHead (pySplit (str ".") name)).getLast? with
  | some c => if c.isDigit then some (c.toNat - 48) else none
  | none => none

/-- Embeds `MetaKernelProduct.product_vid` (src/npb/classes/product.py:469-477):
`str(self.version) + '.0'`; the `try` around it can never fail because
`self.version` is an `int`, so the `'1.0'` fallback is dead. -/
def mk_product_vid (version : Nat) : PyStr := natStr version ++ str ".0"

/-- VID a meta-kernel product gets from its file name: the composition of the
construction-time version extraction and `product_vid`. -/
def mk_product_vid_of_name (name : PyStr) : Option PyStr :=
  (mk_name_version name).map mk_product_vid

/-- Follows the spec's words (section 4.2) rather than the source: the version
embedded in a meta-kernel file name is the full number after the final `v` and
before the extension (`..._v007.tm` embeds 7, `..._v010.tm` embeds 10).  Kept
separate so the claim can be compared against the source-derived
`mk_name_version`. -/
def spec_embedded_version (name : PyStr) : Option Nat :=
  pyInt (pyIdxHead (pySplit (str ".") (pyIdxLast (pySplit (str "v") name))))

/-- Embeds `MetaKernelProduct.check_version`
(src/npb/classes/product.py:400-448): when this run is an increment, the
expected version is parsed from the lexicographically last prior-release
meta-kernel as `int(versions[-1].split('v')[-1].split('.')[0]) + 1`; a parse
failure, and likewise a disagreement with the kernel-list version, is only
logged -- every path returns with the kernel-list (filename) version left in
force, which is the second component of the result. -/
def mk_check_version (version : Nat) (increment : Bool) (prior_mks : List PyStr) :
    List String × Nat :=
  if !increment then ([], version)
  else
    match pyInt (pyIdxHead (pySplit (str ".")
        (pyIdxLast (pySplit (str "v") (pyIdxLast (sortLex prior_mks)))))) with
    | none =>
      (["Meta-kernel from previous increment is not available.",
        "Version from kernel list will be used."], version)
    | some prior =>
      if prior + 1 == version then
        (["Version from kernel list and from previous increment agree."], version)
      else
        (["Version discrepancy.", "Version from kernel list will be used."],
          version)

/-- Every path of `check_version` keeps the filename-derived version in force:
the disagreement is only logged and the run is never aborted. -/
theorem mk_check_version_keeps_version (version : Nat) (increment : Bool)
    (prior_mks : List PyStr) :
    (mk_check_version version increment prior_mks).2 = version := by
  unfold mk_check_version
  split
  · rfl
  · split
    · rfl
    · split <;> rfl

/-- C7 counterexample: the claim states the assigned VID equals the version
embedded in the filename rendered as `<version>.0`.  For `insight_v010.tm` the
embedded version is 10, but the code reads only the last character before the
dot and assigns VID `0.0`, not `10.0`. -/
theorem mk_vid_not_embedded_version :
    mk_product_vid_of_name (str "insight_v010.tm") = some (str "0.0")
    ∧ spec_embedded_version (str "insight_v010.tm") = some 10
    ∧ mk_product_vid 10 ≠ str "0.0" := by
  exact ⟨rfl, rfl, by decide⟩

/-- A single-character separator that does not occur in `a` splits
`a ++ c0 :: b` exactly at `c0`. -/
theorem splitFirst_single (c0 : Char) (b : PyStr) :
    ∀ a : PyStr, c0 ∉ a → splitFirst [c0] (a ++ c0 :: b) = some (a, b) := by
  intro a
  induction a with
  | nil =>
    intro _
    simp [splitFirst, startsList]
  | cons x xs ih =>
    intro ha
    have hx : (c0 == x) = false := by
      simp only [beq_eq_false_iff_ne, ne_eq]
      exact fun h => ha (h ▸ List.mem_cons_self x xs)
    have ih2 := ih fun h => ha (List.mem_cons_of_mem x h)
    simp [splitFirst, startsList, hx, ih2]

/-- Python `l.split(sep)[0]` is the part before the first occurrence of the
separator. -/
theorem pySplit_head (sep l pre post : PyStr)
    (h : splitFirst sep l = some (pre, post)) :
    pyIdxHead (pySplit sep l) = pre := by
  cases l with
  | nil => simp [splitFirst] at h
  | cons c cs =>
    show pyIdxHead (pySplitF sep (c :: cs).length (c :: cs)) = pre
    rw [List.length_cons]
    simp [pySplitF, h, pyIdxHead]

/-- C7 (amended): for a meta-kernel name whose base (the part before the
extension dot) ends in a digit `d`, the assigned VID is derived from that last
digit alone -- `str(d) + ".0"` -- which agrees with the embedded version
exactly when the version has a single digit; and whatever the prior release
implies, `check_version` only logs and the filename-derived version stays in
force, so the run never aborts on the mismatch. -/
theorem mk_vid_last_digit_and_mismatch_nonfatal
    (stem : PyStr) (d : Char) (hd : d.isDigit = true) (hs : '.' ∉ stem)
    (version : Nat) (increment : Bool) (prior_mks : List PyStr) :
    mk_name_version (stem ++ d :: str ".tm") = some (d.toNat - 48)
    ∧ (mk_check_version version increment prior_mks).2 = version := by
  refine ⟨?_, mk_check_version_keeps_version version increment prior_mks⟩
  have hnd : '.' ∉ stem ++ [d] := by
    intro hmem
    rcases List.mem_append.mp hmem with h | h
    · exact hs h
    · have : ('.' : Char) = d := by simpa using h
      rw [← this] at hd
      simp [Char.isDigit] at hd
  have hsplit : splitFirst [('.' : Char)] ((stem ++ [d]) ++ '.' :: str "tm")
      = some (stem ++ [d], str "tm") := splitFirst_single '.' (str "tm") (stem ++ [d]) hnd
  have hshape : stem ++ d :: str ".tm" = (stem ++ [d]) ++ '.' :: str "tm" := by
    simp [str]
  unfold mk_name_version
  rw [hshape, show str "." = [('.' : Char)] from rfl]
  rw [pySplit_head [('.' : Char)] _ _ _ hsplit]
  rw [List.getLast?_concat]
  simp [hd]

/-- C7 witness: `insight_v007.tm` gets VID version 7 from its last digit, and
`check_version` for version 7 on an increment with no prior meta-kernels only
logs and keeps 7. -/
theorem mk_vid_last_digit_witness :
    mk_name_version (str "insight_v00" ++ '7' :: str ".tm") = some 7
    ∧ (mk_check_version 7 true []).2 = 7 :=
  mk_vid_last_digit_and_mismatch_nonfatal (str "insight_v00") '7' (by decide)
    (by decide) 7 true []

/-- Python `str.lower()`. -/
def pyLower (l : PyStr) : PyStr := l.map Char.toLower

/-- Modelled from the spec: `type2extension` lives in npb/utils/files.py, which
is not under src/.  Spec section 4.3 fixes the eight kernel categories of
`kernel_type_list` (product.py:502); each is mapped to the standard SPICE file
extensions of its category. -/
def type2extension (kt : PyStr) : List PyStr :=
  if kt = str "lsk" then [str "tls"]
  else if kt = str "pck" then [str "tpc", str "bpc"]
  else if kt = str "fk" then [str "tf"]
  else if kt = str "ik" then [str "ti"]
  else if kt = str "sclk" then [str "tsc"]
  else if kt = str "spk" then [str "bsp"]
  else if kt = str "ck" then [str "bc"]
  else if kt = str "dsk" then [str "bds"]
  else []

/-- Embeds `kernel_type_list` (src/npb/classes/product.py:502). -/
def kernel_type_list : List PyStr :=
  [str "lsk", str "pck", str "fk", str "ik", str "sclk", str "spk", str "ck",
   str "dsk"]

/-- Selects the most recent element of a non-empty list under the given
recency order (the maximum of a left fold, as a sort-then-take-last does). -/
def pickLatest (recent : PyStr → PyStr → Bool) : List PyStr → Option PyStr
  | [] => none
  | c :: cs => some (cs.foldl (fun a b => if recent a b then b else a) c)

/-- Modelled from the spec: `get_latest_kernel` lives in npb/utils/files.py,
which is not under src/.  Spec section 4.3: within the candidate set matching a
token, select the single most recent file -- by the date-qualifier order when
the token carried `date:`, else lexicographically -- and candidates matching
an `exclude:` pattern are never selected regardless of recency. -/
def get_latest_kernel (recent : PyStr → PyStr → Bool) (candidates : List PyStr)
    (pattern : PyStr) (excluded : List PyStr) : Option PyStr :=
  pickLatest recent (candidates.filter fun c =>
    globMatch pattern c && !(excluded.any fun e => globMatch e c))

/-- Embeds the `exclude:` collection pass of `MetaKernelProduct.write_product`
(src/npb/classes/product.py:513-518): every grammar line containing `exclude:`
contributes the text after it.  The source appends this same set once per
kernel type into one shared list; the duplicates do not change membership, so
the set is computed once here. -/
def excluded_of_grammar (grammar : List PyStr) : List PyStr :=
  (grammar.filter fun g => hasSub (str "exclude:") g).map fun g =>
    pyIdxLast (pySplit (str "exclude:") g)

/-- Embeds the inner token evaluation of `write_product`
(src/npb/classes/product.py:521-572) for one kernel type and one grammar line:
strip a `date:` qualifier, test the extension against the kernel type, and
select the latest non-excluded candidate; a selection contributes the entry
`(kernel_type, kernel)`. -/
def manifest_token (g0 : PyStr) : PyStr :=
  if hasSub (str "date:") g0 then pyIdxLast (pySplit (str "date:") g0) else g0

/-- Recency order a token imposes: the date order when the token carried
`date:`, else the lexicographic order. -/
def manifest_order (dateOrder : PyStr → PyStr → Bool) (g0 : PyStr) :
    PyStr → PyStr → Bool :=
  if hasSub (str "date:") g0 then dateOrder else lexLe

/-- Inner token evaluation continued: extension test and selection. -/
def manifest_entry (dateOrder : PyStr → PyStr → Bool) (excluded : List PyStr)
    (candidates : List PyStr) (kt g0 : PyStr) : List (PyStr × PyStr) :=
  if (type2extension kt).contains
      (pyLower (pyIdxLast (pySplit (str ".") (manifest_token g0)))) then
    match get_latest_kernel (manifest_order dateOrder g0) candidates
        (manifest_token g0) excluded with
    | some k => [(kt, k)]
    | none => []
  else []

/-- Embeds the nested loops of `write_product` (product.py:510-572): kernel
types in order, grammar lines in order, entries concatenated. -/
def build_manifest_pairs (dateOrder : PyStr → PyStr → Bool)
    (grammar candidates : List PyStr) : List (PyStr × PyStr) :=
  kernel_type_list.flatMap fun kt => grammar.flatMap fun g0 =>
    manifest_entry dateOrder (excluded_of_grammar grammar) candidates kt g0

/-- Worker for the stable de-duplication. -/
def dedupAux (seen : List PyStr) : List PyStr → List PyStr
  | [] => []
  | x :: xs =>
    if seen.contains x then dedupAux seen xs else x :: dedupAux (x :: seen) xs

/-- Stable de-duplication, `list(OrderedDict.fromkeys(...))`
(product.py:579): first occurrences, in first-seen order. -/
def stableDedup (l : List PyStr) : List PyStr := dedupAux [] l

/-- Embeds the manifest `mkgen_kernels` as written into the meta-kernel
(product.py:572,579): entries rendered `<type>/<kernel>`, stably de-duplicated. -/
def build_manifest (dateOrder : PyStr → PyStr → Bool)
    (grammar candidates : List PyStr) : List PyStr :=
  stableDedup ((build_manifest_pairs dateOrder grammar candidates).map fun p =>
    p.1 ++ str "/" ++ p.2)

/-- The left fold that keeps the more recent of two elements only ever holds
the initial element or a list element. -/
theorem foldl_latest_mem (recent : PyStr → PyStr → Bool) :
    ∀ (cs : List PyStr) (a : PyStr),
      cs.foldl (fun x b => if recent x b then b else x) a ∈ a :: cs := by
  intro cs
  induction cs with
  | nil => intro a; simp
  | cons b bs ih =>
    intro a
    rw [List.foldl_cons]
    rcases List.mem_cons.mp (ih (if recent a b then b else a)) with h | h
    · rw [h]
      by_cases hr : recent a b = true <;> simp [hr]
    · simp [List.mem_cons_of_mem, h]

/-- A selected element always comes from the list it was selected from. -/
theorem pickLatest_mem (recent : PyStr → PyStr → Bool) (l : List PyStr)
    (k : PyStr) (h : pickLatest recent l = some k) : k ∈ l := by
  cases l with
  | nil => simp [pickLatest] at h
  | cons c cs =>
    simp only [pickLatest, Option.some.injEq] at h
    rw [← h]
    exact foldl_latest_mem recent cs c

/-- A kernel returned by `get_latest_kernel` matches the token pattern and
matches no excluded pattern. -/
theorem get_latest_kernel_not_excluded (recent : PyStr → PyStr → Bool)
    (candidates : List PyStr) (pattern : PyStr) (excluded : List PyStr)
    (k : PyStr) (h : get_latest_kernel recent candidates pattern excluded = some k) :
    (excluded.any fun e => globMatch e k) = false := by
  have hmem := pickLatest_mem recent _ k h
  have hp := (List.mem_filter.mp hmem).2
  simp only [Bool.and_eq_true, Bool.not_eq_true'] at hp
  exact hp.2

/-- Any entry a single token evaluation contributes is a kernel that matches
no excluded pattern. -/
theorem manifest_entry_not_excluded (dateOrder : PyStr → PyStr → Bool)
    (excluded candidates : List PyStr) (kt g0 : PyStr) (p : PyStr × PyStr)
    (h : p ∈ manifest_entry dateOrder excluded candidates kt g0) :
    (excluded.any fun e => globMatch e p.2) = false := by
  unfold manifest_entry at h
  split at h
  · generalize hk : get_latest_kernel (manifest_order dateOrder g0) candidates
      (manifest_token g0) excluded = r at h
    cases r with
    | none => simp at h
    | some k =>
      have hp : p = (kt, k) := by simpa using h
      rw [hp]
      exact get_latest_kernel_not_excluded _ _ _ _ _ hk
  · simp at h

/-- C8: for every kernel category `kt` and every grammar token, a candidate
file name that matches a pattern listed under an `exclude:` directive never
appears in the manifest produced by `MetaKernelProduct.write_product`,
regardless of recency and even when non-excluded candidates exist: the
excluded-pattern set is passed to every `get_latest_kernel` call, which never
selects a candidate matching one of its entries. -/
theorem excluded_candidate_never_selected
    (dateOrder : PyStr → PyStr → Bool) (grammar candidates : List PyStr)
    (g c kt : PyStr) (hg : g ∈ grammar)
    (hx : hasSub (str "exclude:") g = true)
    (hc : globMatch (pyIdxLast (pySplit (str "exclude:") g)) c = true) :
    (kt, c) ∉ build_manifest_pairs dateOrder grammar candidates := by
  intro hmem
  unfold build_manifest_pairs at hmem
  rw [List.mem_flatMap] at hmem
  obtain ⟨t, _, hmem⟩ := hmem
  rw [List.mem_flatMap] at hmem
  obtain ⟨g0, _, hmem⟩ := hmem
  have hfalse := manifest_entry_not_excluded dateOrder
    (excluded_of_grammar grammar) candidates t g0 _ hmem
  have hin : pyIdxLast (pySplit (str "exclude:") g) ∈ excluded_of_grammar grammar :=
    List.mem_map_of_mem _ (List.mem_filter.mpr ⟨hg, hx⟩)
  have htrue : ((excluded_of_grammar grammar).any fun e => globMatch e c) = true :=
    List.any_eq_true.mpr ⟨_, hin, hc⟩
  rw [htrue] at hfalse
  exact Bool.noConfusion hfalse

/-- C8 witness: with a grammar excluding `bad*.bsp` and offering an `*.bsp`
token, and with both an excluded candidate `bad1.bsp` and a non-excluded
candidate `good.bsp` present, the excluded candidate is not selected for the
`spk` category. -/
theorem excluded_candidate_never_selected_witness :
    (str "spk", str "bad1.bsp") ∉ build_manifest_pairs lexLe
      [str "exclude:bad*.bsp", str "*.bsp"] [str "bad1.bsp", str "good.bsp"] :=
  excluded_candidate_never_selected lexLe
    [str "exclude:bad*.bsp", str "*.bsp"] [str "bad1.bsp", str "good.bsp"]
    (str "exclude:bad*.bsp") (str "bad1.bsp") (str "spk")
    (by decide) (by decide) (by decide)

/-- Record counters of `KernelList.validate`
(src/src/pds/naif_pds4_bundler/classes/list.py:710-713). -/
structure RecCounts where
  n_file : Nat
  n_opti : Nat
  n_desc : Nat
deriving DecidableEq

/-- Embeds one iteration of the counting loop of `KernelList.validate`
(list.py:723-744): a line containing `FILE` with a non-empty value after `=`
counts as a FILE record; otherwise a line containing `OPTIONS` counts as a
MAKLABEL_OPTIONS record (even with an empty value, as `write_list` emits for
kernels without options); otherwise a line containing `DESCRIPTION` with a
non-empty value counts as a DESCRIPTION record. -/
def count_step (c : RecCounts) (l : PyStr) : RecCounts :=
  if hasSub (str "FILE") l
      && !(pyStrip (pyIdxLast (pySplit (str "=") l))).isEmpty then
    { c with n_file := c.n_file + 1 }
  else if hasSub (str "OPTIONS") l then
    { c with n_opti := c.n_opti + 1 }
  else if hasSub (str "DESCRIPTION") l
      && !(pyStrip (pyIdxLast (pySplit (str "=") l))).isEmpty then
    { c with n_desc := c.n_desc + 1 }
  else c

/-- Record counts of a kernel-list manifest. -/
def count_records (lines : List PyStr) : RecCounts :=
  lines.foldl count_step ⟨0, 0, 0⟩

/-- Embeds the count check of `KernelList.validate` (list.py:746-762): when
the FILE, MAKLABEL_OPTIONS and DESCRIPTION counts disagree the function logs
the three counts and raises `Exception("List does not have the same number of
entries")`, which nothing catches. -/
def kernel_list_validate_counts (lines : List PyStr) : Except String Unit :=
  if (count_records lines).n_file ≠ (count_records lines).n_opti
      ∨ (count_records lines).n_opti ≠ (count_records lines).n_desc then
    Except.error "List does not have the same number of entries"
  else Except.ok ()

/-- Embeds `SpiceKernelProduct.product_lid` (src/npb/classes/product.py:153-163). -/
def spice_kernel_product_lid (na aa mission ktype kname : PyStr) : PyStr :=
  str "urn:" ++ na ++ str ":" ++ aa ++ str ":" ++ mission
    ++ str ".spice:spice_kernels:" ++ ktype ++ str "_" ++ kname

/-- Embeds the pipeline ordering of the main module
(src/src/pds/naif_pds4_bundler/__main__.py:381,419-437 and
src/npb/main.py:277,311-326): the kernel list is written and validated
(`write_list` ends by calling `KernelList.validate`) strictly before the loop
that registers one `SpiceKernelProduct` per kernel-list entry against the
SPICE kernels collection; an exception from `validate` unwinds before any
registration.  `ktype` stands for `extension2type` (npb/utils/files.py, not
under src/), irrelevant to the control flow. -/
def kernel_list_then_register (na aa mission : PyStr) (ktype : PyStr → PyStr)
    (list_lines : List PyStr) (kernel_list : List PyStr) :
    Except String (List PyStr) := do
  let _ ← kernel_list_validate_counts list_lines
  pure (kernel_list.map fun k => spice_kernel_product_lid na aa mission (ktype k) k)

/-- C9: a generated kernel-list manifest whose FILE, MAKLABEL_OPTIONS and
DESCRIPTION record counts disagree makes `KernelList.validate` raise a fatal
configuration error, and since validation runs while the kernel list is
produced -- before the product registration loop -- no kernel product is
registered against the catalog. -/
theorem kernel_list_mismatch_aborts_before_registration
    (na aa mission : PyStr) (ktype : PyStr → PyStr)
    (list_lines kernel_list : List PyStr)
    (h : (count_records list_lines).n_file ≠ (count_records list_lines).n_opti
      ∨ (count_records list_lines).n_opti ≠ (count_records list_lines).n_desc) :
    kernel_list_then_register na aa mission ktype list_lines kernel_list
      = Except.error "List does not have the same number of entries" := by
  unfold kernel_list_then_register kernel_list_validate_counts
  rw [if_pos h]
  rfl

/-- C9 witness: a manifest with one FILE record, one MAKLABEL_OPTIONS record
and no DESCRIPTION record aborts before the single kernel is registered. -/
theorem kernel_list_mismatch_aborts_witness :
    kernel_list_then_register (str "nasa") (str "pds") (str "insight")
      (fun _ => str "lsk")
      [str "FILE             = spice_kernels/lsk/naif0012.tls",
       str "MAKLABEL_OPTIONS ="]
      [str "naif0012.tls"]
      = Except.error "List does not have the same number of entries" :=
  kernel_list_mismatch_aborts_before_registration (str "nasa") (str "pds")
    (str "insight") (fun _ => str "lsk")
    [str "FILE             = spice_kernels/lsk/naif0012.tls",
     str "MAKLABEL_OPTIONS ="]
    [str "naif0012.tls"] (by decide)
